import Mathlib

/-!
# Verification of the al-manager sound-lifecycle and resource-pool engine

A shallow embedding of the core state-manipulating code of the
`al_manager` Python package (files `sound_pool.py`, `manager.py`,
`sound.py`, `effects.py`), together with theorems settling the frozen
claims about the oneshot pool, the cleanup sweep, handle destruction,
the buffer cache, the distance-mute policy, direct-source positioning,
missing-file handling, reverb preset dispatch, and the oneshot
delegation of non-looping play requests.

Modelling conventions:
* Python floats are modelled as exact rationals (`Rat`); the only float
  operations the modelled code performs are comparisons, stores and
  restores, which are exact.
* The backend (cyal) source state is modelled by the booleans the code
  reads back (`playing`, `paused`); decoding, native buffers/sources and
  effect objects are modelled by identifiers, since the code only
  stores, compares and forwards them.
* Python exceptions swallowed by blanket `try/except` blocks around pure
  attribute accesses cannot fire in the pure model, so those branches
  are not represented.
-/

/-- Tracked per-handle state of a `ManagerItem` as observed by the pool
and the manager sweeps: the backend playback flags read through
`ManagerItem.is_playing` / `ManagerItem.paused`, a destruction marker,
the spatialization mode, the stored position/volume/pitch, and the
effect/filter routing performed on the handle. -/
structure Item where
  id : Nat
  playing : Bool := false
  paused : Bool := false
  destroyed : Bool := false
  direct : Bool := true
  x : Rat := 0
  y : Rat := 0
  z : Rat := 0
  volume : Rat := 1
  pitch : Rat := 1
  /-- auxiliary sends routed to named global effects, `(send_slot, name)` -/
  sends : List (Nat × String) := []
  /-- the direct filter routed from a named global filter -/
  directFilter : Option String := none
  /-- effect configurations applied through `hd.add_effect` (explicit `effects=` argument) -/
  explicitEffects : List (String × List (String × Rat)) := []
  /-- filter configurations applied through `hd.add_filter` (explicit `filters=` argument) -/
  explicitFilters : List (String × List (String × Rat)) := []
deriving DecidableEq, Repr

/-- `ManagerItem.stop`: `Sound.stop` issues a backend stop only when the
source is currently playing (a paused source stays paused). -/
def Item.stop (it : Item) : Item :=
  if it.playing then { it with playing := false } else it

/-- `ManagerItem.destroy` as observed through the pool lists:
`Sound.close` stops the source unconditionally and releases it, so the
handle is no longer playing nor paused and is marked destroyed. -/
def Item.destroy (it : Item) : Item :=
  { it with playing := false, paused := false, destroyed := true }

/-- State of `SoundPool` (sound_pool.py): the FIFO list of tracked
oneshot handles and the capacity bound. -/
structure SoundPoolSt where
  active_oneshots : List Item := []
  max_oneshots : Nat := 100
deriving DecidableEq, Repr

/-- `SoundPool.cleanup_finished_sounds`: keep exactly the tracked
oneshots that are still playing or paused, destroying (and dropping)
the rest. The pool list retains only the survivors. -/
def SoundPool.cleanup_finished_sounds (l : List Item) : List Item :=
  l.filter (fun it => it.playing || it.paused)

/-- The pop-front loop of `SoundPool.force_cleanup_oldest`: pop `n`
items off the front of the list, stopping and destroying each; returns
the remaining list and the list of evicted (now destroyed) handles in
eviction order. -/
def SoundPool.evictLoop : Nat → List Item → List Item × List Item
  | 0, l => (l, [])
  | _ + 1, [] => ([], [])
  | n + 1, oldest :: rest =>
    let r := SoundPool.evictLoop n rest
    (r.1, (oldest.stop).destroy :: r.2)

/-- `SoundPool.force_cleanup_oldest`: no-op on an empty pool; otherwise
stop+destroy the oldest `max 1 (size / 5)` tracked oneshots, front
first. Returns the remaining pool and the evicted handles. -/
def SoundPool.force_cleanup_oldest (l : List Item) : List Item × List Item :=
  if l.isEmpty then (l, [])
  else SoundPool.evictLoop (max 1 (l.length / 5)) l

/-- `SoundPool.set_max_oneshots`: clamp the new capacity to a minimum
of 10, then run one forced eviction pass if the pool is over the new
limit. -/
def SoundPool.set_max_oneshots (st : SoundPoolSt) (n : Nat) : SoundPoolSt :=
  let m := max 10 n
  if st.active_oneshots.length > m then
    { active_oneshots := (SoundPool.force_cleanup_oldest st.active_oneshots).1,
      max_oneshots := m }
  else
    { st with max_oneshots := m }

/-- `SoundPool.play_oneshot`. Environment inputs stand for the
collaborators the code consults: `fileExists` for `os.path.exists`,
`createOk` for `_create_manager_item` succeeding, `newId` for the fresh
handle, `gEff`/`gFil` for the manager's registered global effect/filter
names in registration order, `positioned` (with coordinates) for the
`x`/`y`/`z` arguments being all given. Mirrors the code order:
finished-sound cleanup, capacity eviction, existence check, creation,
positioning, play, global effect/filter auto-apply, append. -/
def SoundPool.play_oneshot (st : SoundPoolSt) (gEff gFil : List String)
    (fileExists createOk : Bool) (newId : Nat) (volume pitch : Rat)
    (positioned : Bool) (px py pz : Rat) : SoundPoolSt × Option Item :=
  let afterCleanup := SoundPool.cleanup_finished_sounds st.active_oneshots
  let afterEvict :=
    if afterCleanup.length ≥ st.max_oneshots then
      (SoundPool.force_cleanup_oldest afterCleanup).1
    else afterCleanup
  if fileExists = false then
    ({ st with active_oneshots := afterEvict }, none)
  else if createOk = false then
    ({ st with active_oneshots := afterEvict }, none)
  else
    let item : Item :=
      { id := newId
        playing := true
        direct := !positioned
        x := if positioned then px else 0
        y := if positioned then py else 0
        z := if positioned then pz else 0
        volume := volume
        pitch := pitch
        sends := gEff.enum
        directFilter := gFil.head? }
    ({ st with active_oneshots := afterEvict ++ [item] }, some item)

/-- Effect/filter configurations passed to `Manager.play` /
`Manager.play_p`: a symbolic type name plus named parameters, as in the
Python dictionaries `[{'type': ..., param: value, ...}, ...]`. -/
abbrev EffectCfg := String × List (String × Rat)

/-- State of `Manager` (manager.py): the persistent item list, the
global effect/filter registries in registration order (Python dicts
preserve insertion order; only the names matter to routing), the
oneshot pool, and the auto-cleanup counter. -/
structure ManagerSt where
  items : List Item := []
  global_effect_slots : List String := []
  global_filters : List String := []
  sound_pool : SoundPoolSt := {}
  play_count : Nat := 0
  auto_cleanup_frequency : Nat := 10
deriving DecidableEq, Repr

/-- The sweep loop of `Manager.clean`: walk the item list, keeping each
item that is playing or paused and destroying every other item.
Returns the kept list (in order) and the destroyed items. -/
def Manager.cleanSweep : List Item → List Item × List Item
  | [] => ([], [])
  | i :: rest =>
    let r := Manager.cleanSweep rest
    if i.playing || i.paused then (i :: r.1, r.2) else (r.1, i.destroy :: r.2)

/-- `Manager.clean`: replace the item list with the kept survivors of
the sweep. -/
def Manager.clean (m : ManagerSt) : ManagerSt :=
  { m with items := (Manager.cleanSweep m.items).1 }

/-- `Manager._auto_cleanup`: bump the play counter; once it reaches
`auto_cleanup_frequency`, run `clean`, run the pool's finished-sound
cleanup, and reset the counter. -/
def Manager.auto_cleanup (m : ManagerSt) : ManagerSt :=
  let m1 := { m with play_count := m.play_count + 1 }
  if m1.play_count ≥ m1.auto_cleanup_frequency then
    let m2 := Manager.clean m1
    { m2 with
      sound_pool :=
        { m2.sound_pool with
          active_oneshots :=
            SoundPool.cleanup_finished_sounds m2.sound_pool.active_oneshots }
      play_count := 0 }
  else m1

/-- The effect-application step of the looping branch of
`Manager.play` / `Manager.play_p`: a non-empty explicit `effects` list
is applied through `hd.add_effect` (per-entry failures are skipped;
the pure model has none); otherwise, if global effects are registered,
they are auto-applied one per send slot in registration order. -/
def Manager.applyEffectsTo (it : Item) (gEff : List String)
    (effects : Option (List EffectCfg)) : Item :=
  match effects with
  | some (c :: cs) => { it with explicitEffects := c :: cs }
  | _ => if gEff.isEmpty then it else { it with sends := gEff.enum }

/-- The filter-application step of the looping branch of
`Manager.play` / `Manager.play_p`: a non-empty explicit `filters` list
is applied through `hd.add_filter`; otherwise, if global filters are
registered, only the first is applied (single direct-filter slot). -/
def Manager.applyFiltersTo (it : Item) (gFil : List String)
    (filters : Option (List EffectCfg)) : Item :=
  match filters with
  | some (c :: cs) => { it with explicitFilters := c :: cs }
  | _ => if gFil.isEmpty then it else { it with directFilter := gFil.head? }

/-- `Manager.play`: return `none` when the file does not exist;
delegate non-looping requests to the oneshot pool, forwarding only
filename, volume and pitch; otherwise create a direct persistent item,
track it, play it, apply effects and filters, and run the auto-cleanup
counter. -/
def Manager.play (m : ManagerSt) (fileExists looping createOk : Bool)
    (newId : Nat) (volume pitch : Rat)
    (effects filters : Option (List EffectCfg)) : ManagerSt × Option Item :=
  if fileExists = false then (m, none)
  else if looping = false then
    let r := SoundPool.play_oneshot m.sound_pool m.global_effect_slots
      m.global_filters fileExists createOk newId volume pitch false 0 0 0
    ({ m with sound_pool := r.1 }, r.2)
  else if createOk = false then (m, none)
  else
    let mi0 : Item :=
      { id := newId, playing := true, direct := true
        volume := volume, pitch := pitch }
    let mi := Manager.applyFiltersTo
      (Manager.applyEffectsTo mi0 m.global_effect_slots effects)
      m.global_filters filters
    (Manager.auto_cleanup { m with items := m.items ++ [mi] }, some mi)

/-- `Manager.play_p`: as `Manager.play` but for positioned sources;
non-looping requests go to the oneshot pool with filename, volume,
pitch and position only. -/
def Manager.play_p (m : ManagerSt) (fileExists : Bool) (x y z : Rat)
    (looping createOk : Bool) (newId : Nat) (volume pitch : Rat)
    (effects filters : Option (List EffectCfg)) : ManagerSt × Option Item :=
  if fileExists = false then (m, none)
  else if looping = false then
    let r := SoundPool.play_oneshot m.sound_pool m.global_effect_slots
      m.global_filters fileExists createOk newId volume pitch true x y z
    ({ m with sound_pool := r.1 }, r.2)
  else if createOk = false then (m, none)
  else
    let mi0 : Item :=
      { id := newId, playing := true, direct := false
        x := x, y := y, z := z, volume := volume, pitch := pitch }
    let mi := Manager.applyFiltersTo
      (Manager.applyEffectsTo mi0 m.global_effect_slots effects)
      m.global_filters filters
    (Manager.auto_cleanup { m with items := m.items ++ [mi] }, some mi)

/-- `Manager.play_oneshot`: direct delegation to the pool (no prior
existence check at the manager level). -/
def Manager.play_oneshot (m : ManagerSt) (fileExists createOk : Bool)
    (newId : Nat) (volume pitch : Rat) : ManagerSt × Option Item :=
  let r := SoundPool.play_oneshot m.sound_pool m.global_effect_slots
    m.global_filters fileExists createOk newId volume pitch false 0 0 0
  ({ m with sound_pool := r.1 }, r.2)

/-- The global `buffers` cache of sound.py: canonical (realpath)
file path to decoded backend buffer, plus a fresh-buffer counter
(`ctx.gen_buffer`) and a count of decode operations performed. -/
structure BuffersSt where
  buffers : List (String × Nat) := []
  next_buffer : Nat := 0
  decodes : Nat := 0
deriving DecidableEq, Repr

/-- Lookup in the `buffers` dictionary (`path in buffers` /
`buffers[path]`). -/
def findBuffer (p : String) : List (String × Nat) → Option Nat
  | [] => none
  | (q, b) :: rest => if q = p then some b else findBuffer p rest

/-- The buffer-cache portion of `Sound.load`: resolve the filename with
`os.path.realpath` (modelled by an arbitrary canonicalization function
`rp`), reuse a cached buffer when one exists for the canonical path,
and otherwise generate a buffer, decode the file into it, and store it
in the cache. Returns the updated cache and the buffer bound to the
sound. (Source/spatialize generation is per-sound and does not touch
the cache.) -/
def Sound.load (rp : String → String) (st : BuffersSt) (filename : String) :
    BuffersSt × Nat :=
  let path := rp filename
  match findBuffer path st.buffers with
  | some b => (st, b)
  | none =>
    ({ buffers := (path, st.next_buffer) :: st.buffers
       next_buffer := st.next_buffer + 1
       decodes := st.decodes + 1 }, st.next_buffer)

/-- Per-sound state touched by `Sound.close` (sound.py): presence of
the source and the (borrowed) buffer reference, backend playback
flags, and the applied effect/filter bookkeeping. -/
structure SoundSt where
  sourceSome : Bool := true
  bufferSome : Bool := true
  playing : Bool := false
  paused : Bool := false
  applied_effects : List EffectCfg := []
  applied_filters : List EffectCfg := []
  direct_filter : Option EffectCfg := none
deriving DecidableEq, Repr

/-- `Sound.is_active`: both a source and a buffer are attached. -/
def Sound.is_active (s : SoundSt) : Bool := s.sourceSome && s.bufferSome

/-- `Sound.remove_all_effects`: on an active sound, clear the four
auxiliary sends and the applied-effects list; otherwise return
early. -/
def Sound.remove_all_effects (s : SoundSt) : SoundSt :=
  if Sound.is_active s then { s with applied_effects := [] } else s

/-- `Sound.remove_all_filters`: on an active sound, clear the direct
filter and the applied-filters list; otherwise return early. -/
def Sound.remove_all_filters (s : SoundSt) : SoundSt :=
  if Sound.is_active s then
    { s with direct_filter := none, applied_filters := [] }
  else s

/-- `Sound.close`: detach effects and filters, stop the source if one
is present, then drop the source and the buffer reference (the shared
cached buffer itself is not destroyed). -/
def Sound.close (s : SoundSt) : SoundSt :=
  let s1 := Sound.remove_all_filters (Sound.remove_all_effects s)
  let s2 := if s1.sourceSome then { s1 with playing := false, paused := false } else s1
  { s2 with sourceSome := false, bufferSome := false }

/-- `ManagerItem` state touched by `ManagerItem.destroy`: the optional
`hd` Sound and the back-reference to the manager. -/
structure MItemSt where
  hd : Option SoundSt := some {}
  managerSome : Bool := true
deriving DecidableEq, Repr

/-- `ManagerItem.destroy`: when `hd` is present, `hd.close()` runs and
the reference is then dropped, so the closed Sound is no longer
reachable through the item and only the dropped reference remains
observable; the manager reference is always dropped. The `try/except`
wrapper makes the operation total. -/
def ManagerItem.destroy (mi : MItemSt) : MItemSt :=
  match mi.hd with
  | some _ => { hd := none, managerSome := false }
  | none => { mi with managerSome := false }

/-- `ManagerItem.destroy` paired with the global buffer cache: the body
of `destroy`/`close` never references the `buffers` dictionary, so the
cache component passes through untouched. -/
def ManagerItem.destroyG (p : MItemSt × BuffersSt) : MItemSt × BuffersSt :=
  (ManagerItem.destroy p.1, p.2)

/-- `ManagerItem` state read and written by the distance-mute policy
(manager.py): stored position, spatialization mode, references to the
manager and to the `hd` Sound, the backend gain (`hd.volume`), and the
muting bookkeeping. `hdActive` models `hd.is_active` (source and
buffer attached), which gates the gain reads/writes; for tracked items
`hdSome` and `hdActive` coincide (load attaches both, close clears
both). -/
structure DItem where
  x : Rat := 0
  y : Rat := 0
  z : Rat := 0
  direct : Bool := false
  managerSome : Bool := true
  hdSome : Bool := true
  hdActive : Bool := true
  hdVolume : Rat := 1
  distance_muted : Bool := false
  stored_volume : Option Rat := none
  max_mute_distance : Rat := 20
deriving DecidableEq, Repr

/-- The `Sound.volume` property getter: gain when active, else 0. -/
def DItem.hdVolumeRead (it : DItem) : Rat :=
  if it.hdActive then it.hdVolume else 0

/-- The `Sound.volume` property setter: writes the gain only when
active. -/
def DItem.hdVolumeWrite (it : DItem) (v : Rat) : DItem :=
  if it.hdActive then { it with hdVolume := v } else it

/-- `ManagerItem._mute_for_distance`: when `hd` is present and the item
is not already muted, store the current volume, set the volume to 0,
and mark the item muted. -/
def ManagerItem.mute_for_distance (it : DItem) : DItem :=
  if it.hdSome && !it.distance_muted then
    let st := { it with stored_volume := some it.hdVolumeRead }
    { st.hdVolumeWrite 0 with distance_muted := true }
  else it

/-- `ManagerItem._unmute_for_distance`: when `hd` is present, the item
is muted and a stored volume exists, restore the stored volume and
clear the muted flag. -/
def ManagerItem.unmute_for_distance (it : DItem) : DItem :=
  if it.hdSome && it.distance_muted && it.stored_volume.isSome then
    { it.hdVolumeWrite (it.stored_volume.getD 0) with distance_muted := false }
  else it

/-- Squared Euclidean distance from the item to the last-known listener
position (`dx*dx + dy*dy + dz*dz` before the `math.sqrt`). -/
def ManagerItem.distSqToListener (it : DItem) (lx ly lz : Rat) : Rat :=
  (it.x - lx) * (it.x - lx) + (it.y - ly) * (it.y - ly) + (it.z - lz) * (it.z - lz)

/-- `ManagerItem._check_distance_muting`: exempt items without a
manager reference and direct items; otherwise mute when out of range
and unmute when back in range. The code compares
`sqrt(distSq) > _max_distance`; `_max_distance` is kept nonnegative
(initialised to 20.0, clamped by `set_max_distance` at 0.0), and for
nonnegative bounds that comparison is equivalent to the squared
comparison used here, which stays in exact rationals. -/
def ManagerItem.check_distance_muting (it : DItem) (lx ly lz : Rat) : DItem :=
  if !it.managerSome || it.direct then it
  else if ManagerItem.distSqToListener it lx ly lz >
      it.max_mute_distance * it.max_mute_distance then
    if !it.distance_muted then ManagerItem.mute_for_distance it else it
  else
    if it.distance_muted then ManagerItem.unmute_for_distance it else it

/-- `ManagerItem.on_listener_moved`: re-run the distance-mute check for
non-direct items whose Sound (with its source) is present. -/
def ManagerItem.on_listener_moved (it : DItem) (lx ly lz : Rat) : DItem :=
  if !it.direct && it.hdSome && it.hdActive then
    ManagerItem.check_distance_muting it lx ly lz
  else it

/-- The item-notification loop of `Manager.update`: after storing the
new listener position, every tracked item re-runs the distance-mute
policy against it. -/
def Manager.update_listener (items : List DItem) (lx ly lz : Rat) : List DItem :=
  items.map (fun it => ManagerItem.on_listener_moved it lx ly lz)

/-- `Sound` state read and written by the `position` and `direct`
property setters (sound.py). -/
structure PSound where
  is_direct : Bool := false
  source_position : Rat × Rat × Rat := (0, 0, 0)
deriving DecidableEq, Repr

/-- The `Sound.position` setter: raises `ValueError` on a direct
source (before any mutation); otherwise stores the new position and
forwards it to the backend source. -/
def Sound.position_set (s : PSound) (p : Rat × Rat × Rat) : Except String PSound :=
  if s.is_direct then Except.error "Direct sources cannot be positioned."
  else Except.ok { s with source_position := p }

/-- The `Sound.direct` setter: a no-op when the mode is unchanged;
switching to direct sets the relative/direct-channels flags, zeroes
the position (through the position setter, while `is_direct` is still
false) and records direct mode; switching away only clears the
flags. -/
def Sound.direct_set (s : PSound) (v : Bool) : PSound :=
  if v = s.is_direct then s
  else if v then { is_direct := true, source_position := (0, 0, 0) }
  else { s with is_direct := false }

/-- The operations that touch a `Sound`'s spatialization state. -/
inductive SoundOp where
  | setDirect : Bool → SoundOp
  | setPosition : Rat × Rat × Rat → SoundOp
deriving DecidableEq, Repr

/-- Run one operation; a raised `ValueError` from the position setter
propagates to the caller and leaves the sound unchanged. -/
def PSound.applyOp (s : PSound) : SoundOp → PSound
  | SoundOp.setDirect v => Sound.direct_set s v
  | SoundOp.setPosition p =>
    match Sound.position_set s p with
    | Except.ok s2 => s2
    | Except.error _ => s

/-- Run a sequence of spatialization operations from a given state. -/
def PSound.run (s : PSound) (ops : List SoundOp) : PSound :=
  ops.foldl PSound.applyOp s

/-- The reverb preset table of `AudioEffect.reverb` (effects.py): a
known preset name expands to its fixed parameter assignment list, an
unknown one to nothing. -/
def reverbPresets : String → Option (List (String × Rat))
  | "room" => some [("density", 1), ("diffusion", 1), ("gain", 0.32),
      ("gainhf", 0.89), ("decay_time", 1.49), ("decay_hfratio", 0.54),
      ("reflections_gain", 0.05), ("reflections_delay", 0.007),
      ("late_reverb_gain", 1.26), ("late_reverb_delay", 0.011)]
  | "hall" => some [("density", 1), ("diffusion", 1), ("gain", 0.32),
      ("gainhf", 0.59), ("decay_time", 3.92), ("decay_hfratio", 0.70),
      ("reflections_gain", 0.24), ("reflections_delay", 0.020),
      ("late_reverb_gain", 1.26), ("late_reverb_delay", 0.030)]
  | "cathedral" => some [("density", 1), ("diffusion", 1), ("gain", 0.32),
      ("gainhf", 0.62), ("decay_time", 5.04), ("decay_hfratio", 0.87),
      ("reflections_gain", 0.20), ("reflections_delay", 0.030),
      ("late_reverb_gain", 1.26), ("late_reverb_delay", 0.090)]
  | "bathroom" => some [("density", 0.17), ("diffusion", 0.65), ("gain", 0.32),
      ("gainhf", 0.54), ("decay_time", 1.51), ("decay_hfratio", 1.25),
      ("reflections_gain", 0.65), ("reflections_delay", 0.025),
      ("late_reverb_gain", 1.26), ("late_reverb_delay", 0.030)]
  | "cave" => some [("density", 1), ("diffusion", 1), ("gain", 0.32),
      ("gainhf", 1), ("decay_time", 2.91), ("decay_hfratio", 1.30),
      ("reflections_gain", 0.50), ("reflections_delay", 0.015),
      ("late_reverb_gain", 0.71), ("late_reverb_delay", 0.022)]
  | "arena" => some [("density", 1), ("diffusion", 1), ("gain", 0.32),
      ("gainhf", 0.44), ("decay_time", 7.24), ("decay_hfratio", 0.33),
      ("reflections_gain", 0.26), ("reflections_delay", 0.020),
      ("late_reverb_gain", 1.01), ("late_reverb_delay", 0.030)]
  | _ => none

/-- `AudioEffect.reverb`, as the list of reverb parameter assignments
it performs on the freshly generated effect object. Non-empty custom
keyword parameters win and the preset is never consulted; with no
custom parameters a given (truthy) preset expands through the preset
table (an unknown preset sets nothing); with neither, the call recurses
with `preset="room"`. -/
def AudioEffect.reverb (preset : Option String) (kwargs : List (String × Rat)) :
    List (String × Rat) :=
  match kwargs with
  | k :: ks => k :: ks
  | [] =>
    match preset with
    | some p => (reverbPresets p).getD []
    | none => (reverbPresets "room").getD []

/-- The reverb branch of `Manager.create_global_effect` (manager.py
lines 534-539): when the keyword arguments carry a truthy `preset`, the
call forwards only `preset=preset` to `AudioEffect.reverb`, discarding
every other keyword argument; only without a preset are the keyword
arguments forwarded. `preset`/`params` are the decomposition of the
call's `**kwargs` into its `preset` entry and the remaining
parameters. -/
def Manager.create_global_effect_reverb (preset : Option String)
    (params : List (String × Rat)) : List (String × Rat) :=
  match preset with
  | some p => AudioEffect.reverb (some p) []
  | none => AudioEffect.reverb none params

/-- Six tracked oneshots, mixed playing/paused/finished, used to
instantiate the eviction-pass theorem. -/
def sixOneshots : List Item :=
  [{ id := 0, playing := true }, { id := 1 }, { id := 2, paused := true },
   { id := 3, playing := true }, { id := 4 }, { id := 5, playing := true }]

/-- A pool reached by 15 successful `play_oneshot` calls (all sounds
still audibly playing) from a fresh pool with the default capacity
100. -/
def poolAfter15 : SoundPoolSt :=
  (List.range 15).foldl
    (fun st i => (SoundPool.play_oneshot st [] [] true true i 1 1 false 0 0 0).1)
    {}

/-- The same pool after `set_max_oneshots(10)`: one forced eviction
pass runs but removes only three handles, leaving twelve tracked
handles against the new limit of ten. -/
def poolShrunk : SoundPoolSt := SoundPool.set_max_oneshots poolAfter15 10

/-- One more successful `play_oneshot` on the over-limit pool. -/
def poolOverLimit : SoundPoolSt :=
  (SoundPool.play_oneshot poolShrunk [] [] true true 100 1 1 false 0 0 0).1

/-- A manager whose oneshot pool tracks one finished handle (neither
playing nor paused). -/
def mgrWithFinishedOneshot : ManagerSt :=
  { sound_pool := { active_oneshots := [{ id := 0 }] } }

/-! ## Helper lemmas -/

/-- Closed form of the eviction loop: popping `n` items evicts exactly
the first `n` (stopped and destroyed, oldest first) and keeps the
rest. -/
theorem SoundPool.evictLoop_eq (n : Nat) (l : List Item) :
    SoundPool.evictLoop n l =
      (l.drop n, (l.take n).map (fun it => (it.stop).destroy)) := by
  induction n generalizing l with
  | zero => simp [SoundPool.evictLoop]
  | succ n ih =>
    cases l with
    | nil => simp [SoundPool.evictLoop]
    | cons a l => simp [SoundPool.evictLoop, ih]

/-- On a pool at or over a positive capacity, one forced eviction pass
leaves strictly fewer tracked handles than the capacity. -/
theorem SoundPool.evict_length_lt (l : List Item) (m : Nat)
    (h1 : l.length ≤ m) (h2 : 1 ≤ m) :
    (if l.length ≥ m then (SoundPool.force_cleanup_oldest l).1 else l).length < m := by
  by_cases h : l.length ≥ m
  · have hm : l.length = m := le_antisymm h1 h
    have hne : l.isEmpty = false := by
      cases l with
      | nil => simp at hm; omega
      | cons a t => rfl
    rw [if_pos h]
    unfold SoundPool.force_cleanup_oldest
    rw [hne, if_neg (by simp)]
    rw [SoundPool.evictLoop_eq]
    simp only [List.length_drop]
    have hc : 1 ≤ max 1 (l.length / 5) := Nat.le_max_left _ _
    omega
  · rw [if_neg h]; omega

/-- Closed form of the cleanup sweep of `Manager.clean`. -/
theorem Manager.cleanSweep_eq (l : List Item) :
    Manager.cleanSweep l =
      (l.filter (fun i => i.playing || i.paused),
       (l.filter (fun i => !(i.playing || i.paused))).map Item.destroy) := by
  induction l with
  | nil => rfl
  | cons a t ih =>
    cases hp : a.playing <;> cases hq : a.paused <;>
      simp [Manager.cleanSweep, ih, List.filter_cons, hp, hq]

/-! ## Claim theorems -/

/-- C2: whenever the pool holds at least the capacity `m ≥ 1` of
tracked oneshots (the at-capacity condition under which `play_oneshot`
runs the pass), the forced eviction pass removes exactly
`max 1 (size / 5)` tracked oneshots — the oldest ones, in insertion
(FIFO) order — and each evicted handle is stopped and destroyed. -/
theorem SoundPool.force_cleanup_oldest_spec (l : List Item) (m : Nat)
    (h1 : 1 ≤ m) (h2 : m ≤ l.length) :
    (SoundPool.force_cleanup_oldest l).1 = l.drop (max 1 (l.length / 5)) ∧
    (SoundPool.force_cleanup_oldest l).2 =
      (l.take (max 1 (l.length / 5))).map (fun it => (it.stop).destroy) ∧
    (SoundPool.force_cleanup_oldest l).2.length = max 1 (l.length / 5) ∧
    (SoundPool.force_cleanup_oldest l).2.all
      (fun it => it.destroyed && !it.playing && !it.paused) = true := by
  have hlen : 1 ≤ l.length := le_trans h1 h2
  have hne : l.isEmpty = false := by
    cases l with
    | nil => simp at hlen
    | cons a t => rfl
  have hcnt : max 1 (l.length / 5) ≤ l.length := by
    have := Nat.div_le_self l.length 5
    omega
  have hF : SoundPool.force_cleanup_oldest l =
      (l.drop (max 1 (l.length / 5)),
       (l.take (max 1 (l.length / 5))).map (fun it => (it.stop).destroy)) := by
    unfold SoundPool.force_cleanup_oldest
    rw [hne]
    simp only [Bool.false_eq_true, if_false]
    exact SoundPool.evictLoop_eq _ _
  rw [hF]
  refine ⟨rfl, rfl, ?_, ?_⟩
  · simp only [List.length_map, List.length_take]
    omega
  · simp only [List.all_eq_true, List.mem_map]
    rintro it ⟨a, _, rfl⟩
    simp [Item.destroy]

/-- Witness for the eviction-pass theorem at the six-element pool with
capacity 5 (`max 1 (6 / 5) = 1` handle evicted). -/
theorem SoundPool.force_cleanup_oldest_spec_witness :
    (SoundPool.force_cleanup_oldest sixOneshots).1 =
      sixOneshots.drop (max 1 (sixOneshots.length / 5)) ∧
    (SoundPool.force_cleanup_oldest sixOneshots).2 =
      (sixOneshots.take (max 1 (sixOneshots.length / 5))).map
        (fun it => (it.stop).destroy) ∧
    (SoundPool.force_cleanup_oldest sixOneshots).2.length =
      max 1 (sixOneshots.length / 5) ∧
    (SoundPool.force_cleanup_oldest sixOneshots).2.all
      (fun it => it.destroyed && !it.playing && !it.paused) = true :=
  SoundPool.force_cleanup_oldest_spec sixOneshots 5 (by decide) (by decide)

/-- C3: the cleanup sweep keeps exactly the tracked handles that are
playing or paused — the same items, unchanged and in order — and
destroys and removes exactly those whose state is neither playing nor
paused. -/
theorem Manager.clean_spec (m : ManagerSt) :
    (Manager.clean m).items = m.items.filter (fun i => i.playing || i.paused) ∧
    (Manager.cleanSweep m.items).2 =
      (m.items.filter (fun i => !(i.playing || i.paused))).map Item.destroy ∧
    (∀ it ∈ m.items, (it.playing || it.paused) = true →
      it ∈ (Manager.clean m).items) ∧
    (∀ it ∈ (Manager.cleanSweep m.items).2, it.destroyed = true) := by
  have h := Manager.cleanSweep_eq m.items
  refine ⟨?_, ?_, ?_, ?_⟩
  · simp [Manager.clean, h]
  · rw [h]
  · intro it hmem hcond
    simp [Manager.clean, h, List.mem_filter, hmem, hcond]
  · intro it hmem
    rw [h] at hmem
    simp only [List.mem_map] at hmem
    obtain ⟨a, _, rfl⟩ := hmem
    simp [Item.destroy]

/-- C1 (amended): `play_oneshot` preserves the capacity bound — if at
most `max_oneshots` handles are tracked before the call (with a
positive capacity, as the code maintains: 100 at construction, clamped
to at least 10 by `set_max_oneshots`), then at most `max_oneshots` are
tracked after any `play_oneshot` call completes. `set_max_oneshots n`
sets the capacity to `max 10 n` and immediately runs exactly one
forced eviction pass when the pool is over the new limit — a pass that
removes only about 20% and so need not bring the pool back under the
limit. -/
theorem SoundPool.play_oneshot_capacity (st : SoundPoolSt)
    (gEff gFil : List String) (fileExists createOk : Bool) (newId : Nat)
    (volume pitch : Rat) (positioned : Bool) (px py pz : Rat) (n : Nat)
    (h1 : st.active_oneshots.length ≤ st.max_oneshots)
    (h2 : 1 ≤ st.max_oneshots) :
    (SoundPool.play_oneshot st gEff gFil fileExists createOk newId volume
        pitch positioned px py pz).1.active_oneshots.length ≤
      (SoundPool.play_oneshot st gEff gFil fileExists createOk newId volume
        pitch positioned px py pz).1.max_oneshots ∧
    (SoundPool.set_max_oneshots st n).max_oneshots = max 10 n ∧
    (st.active_oneshots.length > max 10 n →
      (SoundPool.set_max_oneshots st n).active_oneshots =
        (SoundPool.force_cleanup_oldest st.active_oneshots).1) ∧
    (st.active_oneshots.length ≤ max 10 n →
      (SoundPool.set_max_oneshots st n).active_oneshots =
        st.active_oneshots) := by
  have hkey := SoundPool.evict_length_lt
    (SoundPool.cleanup_finished_sounds st.active_oneshots) st.max_oneshots
    (le_trans (List.length_filter_le _ _) h1) h2
  refine ⟨?_, ?_, ?_, ?_⟩
  · unfold SoundPool.play_oneshot
    cases fileExists <;> cases createOk <;>
      simp_all [List.length_append] <;> omega
  · by_cases h : st.active_oneshots.length > max 10 n <;>
      simp [SoundPool.set_max_oneshots, h]
  · intro h
    simp [SoundPool.set_max_oneshots, h]
  · intro h
    have h2 : ¬ st.active_oneshots.length > max 10 n := by omega
    simp [SoundPool.set_max_oneshots, h2]

/-- Witness for the capacity-preservation theorem at the fresh default
pool. -/
theorem SoundPool.play_oneshot_capacity_witness :
    (SoundPool.play_oneshot {} [] [] true true 7 1 1 false 0 0 0).1.active_oneshots.length ≤
      (SoundPool.play_oneshot {} [] [] true true 7 1 1 false 0 0 0).1.max_oneshots ∧
    (SoundPool.set_max_oneshots {} 3).max_oneshots = max 10 3 ∧
    (({} : SoundPoolSt).active_oneshots.length > max 10 3 →
      (SoundPool.set_max_oneshots {} 3).active_oneshots =
        (SoundPool.force_cleanup_oldest ({} : SoundPoolSt).active_oneshots).1) ∧
    (({} : SoundPoolSt).active_oneshots.length ≤ max 10 3 →
      (SoundPool.set_max_oneshots {} 3).active_oneshots =
        ({} : SoundPoolSt).active_oneshots) :=
  SoundPool.play_oneshot_capacity {} [] [] true true 7 1 1 false 0 0 0 3
    (by decide) (by decide)

/-- C1 counterexample: fifteen playing oneshots, then
`set_max_oneshots(10)` (one pass evicts only three, leaving twelve over
the limit of ten), then one more `play_oneshot` (evicts two, appends
one) completes with eleven tracked handles — more than `max_oneshots`. -/
theorem SoundPool.play_oneshot_capacity_counterexample :
    poolOverLimit.active_oneshots.length = 11 ∧
    poolOverLimit.max_oneshots = 10 ∧
    ¬ (poolOverLimit.active_oneshots.length ≤ poolOverLimit.max_oneshots) := by
  decide

/-- A `findBuffer` miss means the canonical path is not among the cache
keys. -/
theorem findBuffer_none_not_mem (p : String) (l : List (String × Nat))
    (h : findBuffer p l = none) : p ∉ l.map Prod.fst := by
  induction l with
  | nil => simp
  | cons a t ih =>
    obtain ⟨q, b⟩ := a
    by_cases hq : q = p
    · simp [findBuffer, hq] at h
    · simp only [findBuffer, if_neg hq] at h
      simp only [List.map_cons, List.mem_cons]
      rintro (rfl | hc)
      · exact hq rfl
      · exact ih h hc

/-- C4: `destroy` is idempotent and total — for every `N ≥ 1`, calling
it `N` times has the same observable effect on the handle and on the
shared buffer cache as calling it once (the `try/except` wrappers make
every call total, so no call raises); `Sound.close` itself is likewise
idempotent. -/
theorem ManagerItem.destroy_idempotent (p : MItemSt × BuffersSt)
    (s : SoundSt) (n : Nat) (h : 1 ≤ n) :
    ManagerItem.destroyG^[n] p = ManagerItem.destroyG p ∧
    Sound.close (Sound.close s) = Sound.close s := by
  constructor
  · have key : ∀ q, ManagerItem.destroyG (ManagerItem.destroyG q) =
        ManagerItem.destroyG q := by
      intro q
      obtain ⟨mi, b⟩ := q
      cases hmi : mi.hd <;> simp [ManagerItem.destroyG, ManagerItem.destroy, hmi]
    have main : ∀ k : Nat, ManagerItem.destroyG^[k + 1] p =
        ManagerItem.destroyG p := by
      intro k
      induction k with
      | zero => simp
      | succ k2 ih =>
        rw [Function.iterate_succ_apply', ih]
        exact key p
    obtain ⟨k, rfl⟩ : ∃ k, n = k + 1 := ⟨n - 1, by omega⟩
    exact main k
  · cases s
    simp only [Sound.close, Sound.remove_all_effects, Sound.remove_all_filters,
      Sound.is_active]
    split_ifs <;> simp_all

/-- Witness for the destroy-idempotence theorem: two destroys on a
fresh handle paired with an empty cache. -/
theorem ManagerItem.destroy_idempotent_witness :
    ManagerItem.destroyG^[2] (({}, {}) : MItemSt × BuffersSt) =
      ManagerItem.destroyG (({}, {}) : MItemSt × BuffersSt) ∧
    Sound.close (Sound.close ({} : SoundSt)) = Sound.close ({} : SoundSt) :=
  ManagerItem.destroy_idempotent ({}, {}) {} 2 (by decide)

/-- C5: a second sequential load of the same path returns the identical
cached buffer without decoding again and without touching the cache;
loading preserves the at-most-one-buffer-per-canonical-path invariant;
and destroying an individual sound never removes a cached buffer. -/
theorem Sound.load_spec (rp : String → String) (st : BuffersSt) (f : String)
    (q : MItemSt × BuffersSt)
    (hkeys : (st.buffers.map Prod.fst).Nodup) :
    (Sound.load rp (Sound.load rp st f).1 f).2 = (Sound.load rp st f).2 ∧
    (Sound.load rp (Sound.load rp st f).1 f).1 = (Sound.load rp st f).1 ∧
    (Sound.load rp (Sound.load rp st f).1 f).1.decodes =
      (Sound.load rp st f).1.decodes ∧
    ((Sound.load rp st f).1.buffers.map Prod.fst).Nodup ∧
    (ManagerItem.destroyG q).2 = q.2 := by
  cases h : findBuffer (rp f) st.buffers with
  | some b =>
    exact ⟨by simp [Sound.load, h], by simp [Sound.load, h],
      by simp [Sound.load, h], by simpa [Sound.load, h] using hkeys, rfl⟩
  | none =>
    have hnm := findBuffer_none_not_mem _ _ h
    refine ⟨?_, ?_, ?_, ?_, rfl⟩
    · simp [Sound.load, h, findBuffer]
    · simp [Sound.load, h, findBuffer]
    · simp [Sound.load, h, findBuffer]
    · have hload : Sound.load rp st f =
          ({ buffers := (rp f, st.next_buffer) :: st.buffers
             next_buffer := st.next_buffer + 1
             decodes := st.decodes + 1 }, st.next_buffer) := by
        simp [Sound.load, h]
      rw [hload]
      exact List.nodup_cons.mpr ⟨hnm, hkeys⟩

/-- Witness for the buffer-cache theorem: loading the same file twice
into an empty cache. -/
theorem Sound.load_spec_witness :
    (Sound.load id (Sound.load id {} "sound.ogg").1 "sound.ogg").2 =
      (Sound.load id {} "sound.ogg").2 ∧
    (Sound.load id (Sound.load id {} "sound.ogg").1 "sound.ogg").1 =
      (Sound.load id {} "sound.ogg").1 ∧
    (Sound.load id (Sound.load id {} "sound.ogg").1 "sound.ogg").1.decodes =
      (Sound.load id {} "sound.ogg").1.decodes ∧
    ((Sound.load id ({} : BuffersSt) "sound.ogg").1.buffers.map Prod.fst).Nodup ∧
    (ManagerItem.destroyG (({}, {}) : MItemSt × BuffersSt)).2 =
      (({}, {}) : MItemSt × BuffersSt).2 :=
  Sound.load_spec id {} "sound.ogg" ({}, {}) (by simp)

/-- C6: the distance-mute policy. For a handle with an attached manager
and a live Sound: crossing beyond the max-mute distance while unmuted
stores the current volume, zeroes the audible volume and marks the
handle muted; coming back within range while muted restores exactly
the stored volume and clears the flag; a direct-mode handle is never
evaluated. `0 ≤ max_mute_distance` is the regime the code maintains
(initial 20.0, clamped at 0.0), under which the squared comparison of
the model agrees with the code's comparison of the square root. -/
theorem ManagerItem.check_distance_muting_spec (it : DItem)
    (lx ly lz v : Rat)
    (hhd : it.hdSome = true) (hact : it.hdActive = true)
    (hD : 0 ≤ it.max_mute_distance) :
    (it.direct = true → ManagerItem.check_distance_muting it lx ly lz = it) ∧
    (it.managerSome = true → it.direct = false →
      ManagerItem.distSqToListener it lx ly lz >
        it.max_mute_distance * it.max_mute_distance →
      it.distance_muted = false →
      ManagerItem.check_distance_muting it lx ly lz =
        { it with stored_volume := some it.hdVolume, hdVolume := 0,
                  distance_muted := true }) ∧
    (it.managerSome = true → it.direct = false →
      ManagerItem.distSqToListener it lx ly lz ≤
        it.max_mute_distance * it.max_mute_distance →
      it.distance_muted = true → it.stored_volume = some v →
      (ManagerItem.check_distance_muting it lx ly lz).hdVolume = v ∧
      (ManagerItem.check_distance_muting it lx ly lz).distance_muted = false ∧
      ManagerItem.check_distance_muting it lx ly lz =
        { it with hdVolume := v, distance_muted := false }) := by
  refine ⟨?_, ?_, ?_⟩
  · intro hdir
    simp [ManagerItem.check_distance_muting, hdir]
  · intro hm hdir hdist hmut
    have hguard : (!it.managerSome || it.direct) = false := by
      rw [hm, hdir]
      rfl
    unfold ManagerItem.check_distance_muting
    rw [hguard]
    simp only [Bool.false_eq_true, if_false]
    rw [if_pos hdist]
    simp [hmut, ManagerItem.mute_for_distance, hhd, DItem.hdVolumeRead,
      DItem.hdVolumeWrite, hact]
  · intro hm hdir hdist hmut hst
    have hguard : (!it.managerSome || it.direct) = false := by
      rw [hm, hdir]
      rfl
    have hcond : ¬ (ManagerItem.distSqToListener it lx ly lz >
        it.max_mute_distance * it.max_mute_distance) := not_lt.mpr hdist
    have hres : ManagerItem.check_distance_muting it lx ly lz =
        { it with hdVolume := v, distance_muted := false } := by
      unfold ManagerItem.check_distance_muting
      rw [hguard]
      simp only [Bool.false_eq_true, if_false]
      rw [if_neg hcond]
      simp [hmut, ManagerItem.unmute_for_distance, hhd, hst,
        DItem.hdVolumeWrite, hact]
    rw [hres]
    exact ⟨rfl, rfl, rfl⟩

/-- Witness for the distance-mute theorem: the default positioned
handle at the origin against a listener at `(25, 0, 0)`. -/
theorem ManagerItem.check_distance_muting_spec_witness :
    (({} : DItem).direct = true →
      ManagerItem.check_distance_muting {} 25 0 0 = {}) ∧
    (({} : DItem).managerSome = true → ({} : DItem).direct = false →
      ManagerItem.distSqToListener {} 25 0 0 >
        ({} : DItem).max_mute_distance * ({} : DItem).max_mute_distance →
      ({} : DItem).distance_muted = false →
      ManagerItem.check_distance_muting {} 25 0 0 =
        { ({} : DItem) with stored_volume := some ({} : DItem).hdVolume,
                            hdVolume := 0, distance_muted := true }) ∧
    (({} : DItem).managerSome = true → ({} : DItem).direct = false →
      ManagerItem.distSqToListener {} 25 0 0 ≤
        ({} : DItem).max_mute_distance * ({} : DItem).max_mute_distance →
      ({} : DItem).distance_muted = true →
      ({} : DItem).stored_volume = some 1 →
      (ManagerItem.check_distance_muting {} 25 0 0).hdVolume = 1 ∧
      (ManagerItem.check_distance_muting {} 25 0 0).distance_muted = false ∧
      ManagerItem.check_distance_muting {} 25 0 0 =
        { ({} : DItem) with hdVolume := 1, distance_muted := false }) :=
  ManagerItem.check_distance_muting_spec {} 25 0 0 1 (by decide) (by decide)
    (by norm_num)

/-- The `direct → position = 0` invariant is preserved through any
sequence of spatialization operations. -/
theorem PSound.run_preserves_direct_zero (ops : List SoundOp) (s : PSound)
    (h : s.is_direct = true → s.source_position = (0, 0, 0)) :
    (PSound.run s ops).is_direct = true →
      (PSound.run s ops).source_position = (0, 0, 0) := by
  induction ops generalizing s with
  | nil => exact h
  | cons op rest ih =>
    simp only [PSound.run, List.foldl_cons]
    apply ih
    cases op with
    | setDirect v =>
      by_cases hv : v = s.is_direct
      · simpa [PSound.applyOp, Sound.direct_set, hv] using h
      · cases v with
        | false => simp [PSound.applyOp, Sound.direct_set, hv]
        | true => simp [PSound.applyOp, Sound.direct_set, hv]
    | setPosition p =>
      by_cases hs : s.is_direct = true
      · simpa [PSound.applyOp, Sound.position_set, hs] using h
      · simp [PSound.applyOp, Sound.position_set, hs]

/-- C7: a handle in direct mode reads position `(0,0,0)` in every
reachable state, and every attempt to set its position raises
`ValueError` and leaves the state unchanged. -/
theorem Sound.direct_position_spec (ops : List SoundOp) (p : Rat × Rat × Rat)
    (h : (PSound.run {} ops).is_direct = true) :
    (PSound.run {} ops).source_position = (0, 0, 0) ∧
    Sound.position_set (PSound.run {} ops) p =
      Except.error "Direct sources cannot be positioned." ∧
    PSound.applyOp (PSound.run {} ops) (SoundOp.setPosition p) =
      PSound.run {} ops := by
  have hpos := PSound.run_preserves_direct_zero ops {} (fun _ => rfl) h
  have herr : Sound.position_set (PSound.run {} ops) p =
      Except.error "Direct sources cannot be positioned." := by
    unfold Sound.position_set
    rw [if_pos h]
  refine ⟨hpos, herr, ?_⟩
  simp only [PSound.applyOp]
  rw [herr]

/-- Witness for the direct-position theorem: a sound switched to direct
mode by one `direct = True` assignment. -/
theorem Sound.direct_position_spec_witness :
    (PSound.run {} [SoundOp.setDirect true]).source_position = (0, 0, 0) ∧
    Sound.position_set (PSound.run {} [SoundOp.setDirect true]) (1, 2, 3) =
      Except.error "Direct sources cannot be positioned." ∧
    PSound.applyOp (PSound.run {} [SoundOp.setDirect true])
      (SoundOp.setPosition (1, 2, 3)) = PSound.run {} [SoundOp.setDirect true] :=
  Sound.direct_position_spec [SoundOp.setDirect true] (1, 2, 3) (by decide)

/-- The cleanup-then-capacity-eviction prefix of `play_oneshot` only
ever removes tracked handles: the resulting pool list is a sublist of
the original. -/
theorem SoundPool.afterEvict_sublist (l : List Item) (mx : Nat) :
    List.Sublist
      (if (SoundPool.cleanup_finished_sounds l).length ≥ mx then
        (SoundPool.force_cleanup_oldest (SoundPool.cleanup_finished_sounds l)).1
      else SoundPool.cleanup_finished_sounds l) l := by
  have hf : List.Sublist (SoundPool.cleanup_finished_sounds l) l :=
    List.filter_sublist l
  split
  · unfold SoundPool.force_cleanup_oldest
    split
    · exact hf
    · rw [SoundPool.evictLoop_eq]
      exact List.Sublist.trans (List.drop_sublist _ _) hf
  · exact hf

/-- C8 (amended): with a missing file, `Manager.play` and
`Manager.play_p` return `None` before touching any state, leaving the
registry's tracked collections unchanged. `play_oneshot` also returns
`None` and adds no handle, but it runs its routine finished-sound
cleanup and capacity eviction before the existence check, so it may
drop finished (or force-evicted) handles from the pool: the surviving
pool is a sublist of the original, and the persistent item list is
untouched. -/
theorem Manager.missing_file_spec (m : ManagerSt) (x y z volume pitch : Rat)
    (looping createOk : Bool) (newId : Nat)
    (effects filters : Option (List EffectCfg)) :
    Manager.play m false looping createOk newId volume pitch effects filters =
      (m, none) ∧
    Manager.play_p m false x y z looping createOk newId volume pitch effects
      filters = (m, none) ∧
    (Manager.play_oneshot m false createOk newId volume pitch).2 = none ∧
    List.Sublist
      (Manager.play_oneshot m false createOk newId volume
        pitch).1.sound_pool.active_oneshots
      m.sound_pool.active_oneshots ∧
    (Manager.play_oneshot m false createOk newId volume pitch).1.items =
      m.items := by
  refine ⟨?_, ?_, ?_, ?_, ?_⟩
  · simp [Manager.play]
  · simp [Manager.play_p]
  · simp [Manager.play_oneshot, SoundPool.play_oneshot]
  · have key := SoundPool.afterEvict_sublist m.sound_pool.active_oneshots
      m.sound_pool.max_oneshots
    simpa [Manager.play_oneshot, SoundPool.play_oneshot] using key
  · simp [Manager.play_oneshot, SoundPool.play_oneshot]

/-- C8 counterexample: on a pool tracking one finished oneshot,
`play_oneshot` with a missing file returns `None` but still changes the
tracked collection (the finished handle is cleaned up). -/
theorem Manager.missing_file_counterexample :
    (Manager.play_oneshot mgrWithFinishedOneshot false true 1 1 1).2 = none ∧
    (Manager.play_oneshot mgrWithFinishedOneshot false true 1 1
      1).1.sound_pool.active_oneshots = [] ∧
    (Manager.play_oneshot mgrWithFinishedOneshot false true 1 1 1).1 ≠
      mgrWithFinishedOneshot := by
  decide

/-- C9 counterexample: `create_global_effect` called with both a preset
and an explicit parameter applies the preset table and ignores the
explicit parameter — even though `AudioEffect.reverb` itself, at the
very same input, gives the explicit parameter priority. -/
theorem Manager.create_global_effect_reverb_counterexample :
    Manager.create_global_effect_reverb (some "hall") [("decay_time", 9)] ≠
      [("decay_time", 9)] ∧
    Manager.create_global_effect_reverb (some "hall") [("decay_time", 9)] =
      (reverbPresets "hall").getD [] ∧
    AudioEffect.reverb (some "hall") [("decay_time", 9)] =
      [("decay_time", 9)] := by
  refine ⟨?_, rfl, rfl⟩
  intro hcontra
  have h10 : (Manager.create_global_effect_reverb (some "hall")
      [("decay_time", 9)]).length = 10 := rfl
  rw [hcontra] at h10
  simp at h10

/-- C9 (amended): in `AudioEffect.reverb`, explicit parameters win and
the preset lookup is ignored entirely; but on the
`Manager.create_global_effect` code path a given preset is forwarded
alone, discarding the explicit parameters (the preset wins there);
without a preset the explicit parameters pass through unchanged. -/
theorem AudioEffect.reverb_explicit_wins (p : String) (k : String × Rat)
    (ks : List (String × Rat)) :
    AudioEffect.reverb (some p) (k :: ks) = k :: ks ∧
    Manager.create_global_effect_reverb (some p) (k :: ks) =
      AudioEffect.reverb (some p) [] ∧
    Manager.create_global_effect_reverb none (k :: ks) = k :: ks :=
  ⟨rfl, rfl, rfl⟩

/-- Any handle returned by `play_oneshot` carries no explicitly
requested effects or filters: its sends are exactly the registered
global effects in registration order and its direct filter is at most
the first registered global filter. -/
theorem SoundPool.play_oneshot_item_fields (st : SoundPoolSt)
    (gEff gFil : List String) (fileExists createOk : Bool) (newId : Nat)
    (volume pitch : Rat) (positioned : Bool) (px py pz : Rat) (it : Item)
    (h : (SoundPool.play_oneshot st gEff gFil fileExists createOk newId volume
      pitch positioned px py pz).2 = some it) :
    it.explicitEffects = [] ∧ it.explicitFilters = [] ∧
    it.sends = gEff.enum ∧ it.directFilter = gFil.head? := by
  cases fileExists with
  | false => simp [SoundPool.play_oneshot] at h
  | true =>
    cases createOk with
    | false => simp [SoundPool.play_oneshot] at h
    | true =>
      simp only [SoundPool.play_oneshot, Bool.true_eq_false, if_false,
        Option.some.injEq] at h
      subst h
      exact ⟨rfl, rfl, rfl, rfl⟩

/-- C10: a `play` or `play_p` call with `looping=False` silently
ignores any `effects`/`filters` arguments — the request is delegated
to the oneshot pool with only filename, volume, pitch (and position) —
so the returned handle carries none of the explicitly requested
effects or filters, only the auto-applied global ones (one auxiliary
send per registered global effect, in registration order, and at most
the first registered global filter). -/
theorem Manager.play_nonlooping_spec (m : ManagerSt)
    (fileExists createOk : Bool) (newId : Nat) (volume pitch x y z : Rat)
    (effects filters : Option (List EffectCfg)) (it : Item) :
    Manager.play m fileExists false createOk newId volume pitch effects
        filters =
      Manager.play m fileExists false createOk newId volume pitch none none ∧
    Manager.play_p m fileExists x y z false createOk newId volume pitch
        effects filters =
      Manager.play_p m fileExists x y z false createOk newId volume pitch
        none none ∧
    (fileExists = true →
      Manager.play m fileExists false createOk newId volume pitch effects
          filters =
        ({ m with sound_pool := (SoundPool.play_oneshot m.sound_pool
              m.global_effect_slots m.global_filters true createOk newId
              volume pitch false 0 0 0).1 },
         (SoundPool.play_oneshot m.sound_pool m.global_effect_slots
            m.global_filters true createOk newId volume pitch false 0 0
            0).2)) ∧
    ((Manager.play m fileExists false createOk newId volume pitch effects
        filters).2 = some it →
      it.explicitEffects = [] ∧ it.explicitFilters = [] ∧
      it.sends = m.global_effect_slots.enum ∧
      it.directFilter = m.global_filters.head?) := by
  refine ⟨?_, ?_, ?_, ?_⟩
  · cases fileExists <;> rfl
  · cases fileExists <;> rfl
  · intro he
    subst he
    rfl
  · intro hsome
    have hdeleg : (Manager.play m fileExists false createOk newId volume pitch
        effects filters).2 =
        (SoundPool.play_oneshot m.sound_pool m.global_effect_slots
          m.global_filters fileExists createOk newId volume pitch false 0 0
          0).2 := by
      cases fileExists with
      | false => simp [Manager.play, SoundPool.play_oneshot]
      | true => rfl
    rw [hdeleg] at hsome
    exact SoundPool.play_oneshot_item_fields m.sound_pool m.global_effect_slots
      m.global_filters fileExists createOk newId volume pitch false 0 0 0 it
      hsome

/-- Witness for the non-looping delegation theorem: a fresh manager, an
existing file, explicit effect and filter requests, and the handle the
pool produces. -/
theorem Manager.play_nonlooping_spec_witness :
    Manager.play {} true false true 5 1 1 (some [("reverb", [])])
        (some [("lowpass", [])]) =
      Manager.play {} true false true 5 1 1 none none ∧
    Manager.play_p {} true 2 3 4 false true 5 1 1 (some [("reverb", [])])
        (some [("lowpass", [])]) =
      Manager.play_p {} true 2 3 4 false true 5 1 1 none none ∧
    (true = true →
      Manager.play {} true false true 5 1 1 (some [("reverb", [])])
          (some [("lowpass", [])]) =
        ({ ({} : ManagerSt) with
            sound_pool := (SoundPool.play_oneshot ({} : ManagerSt).sound_pool
              ({} : ManagerSt).global_effect_slots
              ({} : ManagerSt).global_filters true true 5 1 1 false 0 0 0).1 },
         (SoundPool.play_oneshot ({} : ManagerSt).sound_pool
            ({} : ManagerSt).global_effect_slots
            ({} : ManagerSt).global_filters true true 5 1 1 false 0 0 0).2)) ∧
    ((Manager.play {} true false true 5 1 1 (some [("reverb", [])])
        (some [("lowpass", [])])).2 = some { id := 5, playing := true } →
      ({ id := 5, playing := true } : Item).explicitEffects = [] ∧
      ({ id := 5, playing := true } : Item).explicitFilters = [] ∧
      ({ id := 5, playing := true } : Item).sends =
        ({} : ManagerSt).global_effect_slots.enum ∧
      ({ id := 5, playing := true } : Item).directFilter =
        ({} : ManagerSt).global_filters.head?) :=
  Manager.play_nonlooping_spec {} true true 5 1 1 2 3 4
    (some [("reverb", [])]) (some [("lowpass", [])])
    { id := 5, playing := true }
